import Mathlib

/-!
Shallow embedding of the asynchronous job core of `src/Server/minimal-server.py`
(a mock cloud backend: projects, compile jobs, backtest jobs).

Conventions of the embedding:
* Python dicts are modelled as insertion-ordered association lists
  (`dictGet`, `dictSet`, `dictValues` mirror `d[k]` / `d.get(k)`,
  `d[k] = v`, `d.values()`).
* Python floats are modelled as `Rat`.  Every float that occurs in the
  job core is produced by a correctly rounded literal or a single
  division of small literals, so all equalities and comparisons the
  claims mention are preserved by the rational model.
* `uuid.uuid4()` is modelled as an explicit fresh-id parameter passed to
  the creation handlers.
* The background threads (`simulate_compilation`, `simulate_backtest`)
  are modelled by their ordered sequence of store writes; the state
  reachable after any prefix of those writes is the state a concurrent
  reader may observe.
* Timestamp fields (`created`, `modified`) are omitted: no operation of
  the job core reads them.
* `request.get_json()` field access `data.get(k)` is modelled by
  `Option`-valued request fields; Python truthiness of a string
  (`if backtest_id:`) is `≠ ""` on the present case and false on `none`.
-/

namespace MinimalServer

/-- Python dict lookup `d.get(k)` / `k in d` on a keyed association list
(first match; keys are unique in states built by the handlers). -/
def dictGet {α β : Type} [DecidableEq α] : List (α × β) → α → Option β
  | [], _ => none
  | (k, v) :: rest, k0 => if k = k0 then some v else dictGet rest k0

/-- Python dict assignment `d[k] = v`: update in place if the key is
present, append otherwise (insertion order preserved). -/
def dictSet {α β : Type} [DecidableEq α] : List (α × β) → α → β → List (α × β)
  | [], k, v => [(k, v)]
  | (k0, v0) :: rest, k, v =>
    if k0 = k then (k, v) :: rest else (k0, v0) :: dictSet rest k v

/-- Python `d.values()` in insertion order. -/
def dictValues {α β : Type} (d : List (α × β)) : List β := d.map Prod.snd

/-- A background-thread store write `d[k][field] = v`: look the record
up and update the field.  A missing record leaves the store unchanged
(the runner fault is non-fatal). -/
def dictWrite {α β ω : Type} [DecidableEq α] (app : β → ω → β) (k : α)
    (d : List (α × β)) (w : ω) : List (α × β) :=
  match dictGet d k with
  | some v => dictSet d k (app v w)
  | none => d

/-- Project record (`create_project`, lines 66-73; timestamps omitted). -/
structure Project where
  projectId : Nat
  name : String
  language : String
deriving DecidableEq

/-- File record (`create_file`, lines 115-119; timestamp omitted). -/
structure FileInfo where
  name : String
  content : String
deriving DecidableEq

/-- Compile job record (`create_compile`, lines 159-165). -/
structure CompileInfo where
  compileId : String
  state : String
  logs : List String
  success : Bool
  errors : List String
deriving DecidableEq

/-- `result.TotalPerformance.TradeStatistics` of a backtest record. -/
structure TradeStats where
  TotalNumberOfTrades : Nat
  WinRate : Rat
deriving DecidableEq

/-- `result.TotalPerformance.PortfolioStatistics` of a backtest record. -/
structure PortfolioStats where
  TotalNetProfit : Rat
  SharpeRatio : Rat
deriving DecidableEq

/-- `result.TotalPerformance` of a backtest record. -/
structure TotalPerf where
  TradeStatistics : TradeStats
  PortfolioStatistics : PortfolioStats
deriving DecidableEq

/-- `result` payload of a backtest record (lines 211-219).  The
`Charts`, `Orders` and `Statistics` sub-objects are constant empty
dicts that no code ever writes, so they are omitted. -/
structure BacktestResult where
  TotalPerformance : TotalPerf
deriving DecidableEq

/-- Backtest job record (`create_backtest`, lines 205-225; the
`created` timestamp is omitted). -/
structure BacktestInfo where
  name : String
  note : String
  backtestId : String
  completed : Bool
  progress : Rat
  result : BacktestResult
  error : String
  stacktrace : String
  success : Bool
  errors : List String
deriving DecidableEq

/-- The four module-level storage dicts (lines 21-24). -/
structure ServerState where
  projects : List (Nat × Project)
  files : List (Nat × List FileInfo)
  compiles : List (String × CompileInfo)
  backtests : List (String × BacktestInfo)
deriving DecidableEq

/-- Backtest records are stored without a `"projectId"` key, so
`bt.get("projectId")` (line 272) always yields Python `None`. -/
def btProjectIdField (_bt : BacktestInfo) : Option Nat := none

/-- Request body of `POST /api/v2/projects/create` (lines 62-64). -/
structure ProjectCreateReq where
  name : Option String
  language : Option String
deriving DecidableEq

/-- Request body of `POST /api/v2/compile/create` (line 153). -/
structure CompileCreateReq where
  projectId : Option Nat
deriving DecidableEq

/-- Request body of `POST /api/v2/compile/read` (lines 184-185). -/
structure CompileReadReq where
  projectId : Option Nat
  compileId : Option String
deriving DecidableEq

/-- Request body of `POST /api/v2/backtests/create` (lines 197-199). -/
structure BacktestCreateReq where
  projectId : Option Nat
  compileId : Option String
  backtestName : Option String
deriving DecidableEq

/-- Request body of `POST /api/v2/backtests/read` (lines 260-261). -/
structure BacktestReadReq where
  projectId : Option Nat
  backtestId : Option String
deriving DecidableEq

/-- Response of `create_project` (line 78). -/
inductive ProjectCreateResp where
  | ok (success : Bool) (projects : List Project) (errors : List String)
deriving DecidableEq

/-- Response of `create_compile`: the error payload of line 156 or the
record payload of line 177. -/
inductive CompileCreateResp where
  | err (success : Bool) (errors : List String)
  | record (info : CompileInfo)
deriving DecidableEq

/-- Response of `read_compile`: the error payload of line 188 or the
record payload of line 190. -/
inductive CompileReadResp where
  | err (success : Bool) (errors : List String)
  | record (info : CompileInfo)
deriving DecidableEq

/-- Response of `create_backtest`: the error payload of line 202 or the
record payload of line 253. -/
inductive BacktestCreateResp where
  | err (success : Bool) (errors : List String)
  | record (info : BacktestInfo)
deriving DecidableEq

/-- Response of `read_backtest`: the record payload of line 266, the
error payload of line 268, or the per-project listing of line 274. -/
inductive BacktestReadResp where
  | err (success : Bool) (errors : List String)
  | record (info : BacktestInfo)
  | listing (success : Bool) (backtests : List BacktestInfo) (errors : List String)
deriving DecidableEq

/-- `create_project` (lines 59-78): allocate `len(projects) + 1`,
store the project and an empty file list. -/
def create_project (req : ProjectCreateReq) (s : ServerState) :
    ProjectCreateResp × ServerState :=
  let name := req.name.getD "Untitled Project"
  let language := req.language.getD "C#"
  let project_id := s.projects.length + 1
  let project : Project :=
    { projectId := project_id, name := name, language := language }
  (.ok true [project] [],
    { s with
      projects := dictSet s.projects project_id project,
      files := dictSet s.files project_id [] })

/-- The compile record built at lines 159-165. -/
def newCompileInfo (compile_id : String) : CompileInfo :=
  { compileId := compile_id, state := "InQueue",
    logs := ["Compilation started"], success := true, errors := [] }

/-- One store write of the `simulate_compilation` thread
(lines 170-174). -/
inductive CompileWrite where
  | setState (st : String)
  | appendLog (msg : String)
deriving DecidableEq

/-- Effect of one `simulate_compilation` write on a compile record. -/
def applyCompileWrite (info : CompileInfo) : CompileWrite → CompileInfo
  | .setState st => { info with state := st }
  | .appendLog m => { info with logs := info.logs ++ [m] }

/-- The ordered writes of `simulate_compilation` (lines 170-174),
performed after the single 2-time-unit sleep of line 171. -/
def compileSchedule : List CompileWrite :=
  [.setState "BuildSuccess", .appendLog "Compilation completed successfully"]

/-- Record-level effect of a completed `simulate_compilation` run. -/
def simulate_compilation (info : CompileInfo) : CompileInfo :=
  compileSchedule.foldl applyCompileWrite info

/-- Store-level effect of a completed `simulate_compilation` run for
compile id `cid`. -/
def compileStoreRun (cid : String) (s : ServerState) : ServerState :=
  { s with compiles := compileSchedule.foldl (dictWrite applyCompileWrite cid) s.compiles }

/-- `create_compile` (lines 149-177).  `uuid.uuid4()` is the explicit
parameter `compile_id`; the third component of the output is the id the
launched `simulate_compilation` thread will write to (`none` when no
thread is started). -/
def create_compile (compile_id : String) (req : CompileCreateReq)
    (s : ServerState) : CompileCreateResp × ServerState × Option String :=
  match req.projectId with
  | none => (.err false ["Project not found"], s, none)
  | some pid =>
    match dictGet s.projects pid with
    | none => (.err false ["Project not found"], s, none)
    | some _ =>
      let info := newCompileInfo compile_id
      (.record info,
        { s with compiles := dictSet s.compiles compile_id info },
        some compile_id)

/-- `read_compile` (lines 180-190).  A missing `compileId` field is
Python `None`, which is never a key of the string-keyed dict. -/
def read_compile (req : CompileReadReq) (s : ServerState) :
    CompileReadResp × ServerState :=
  match req.compileId with
  | none => (.err false ["Compile job not found"], s)
  | some cid =>
    match dictGet s.compiles cid with
    | none => (.err false ["Compile job not found"], s)
    | some info => (.record info, s)

/-- The zero-valued `result` payload built at lines 211-219. -/
def initialBacktestResult : BacktestResult :=
  { TotalPerformance :=
    { TradeStatistics := { TotalNumberOfTrades := 0, WinRate := 0 },
      PortfolioStatistics := { TotalNetProfit := 0, SharpeRatio := 0 } } }

/-- The backtest record built at lines 205-225. -/
def newBacktestInfo (backtest_name backtest_id : String) : BacktestInfo :=
  { name := backtest_name, note := "", backtestId := backtest_id,
    completed := false, progress := 0, result := initialBacktestResult,
    error := "", stacktrace := "", success := true, errors := [] }

/-- One store write of the `simulate_backtest` thread (lines 230-249). -/
inductive BacktestWrite where
  | setProgress (p : Rat)
  | setCompleted (b : Bool)
  | setTotalNumberOfTrades (n : Nat)
  | setWinRate (r : Rat)
  | setTotalNetProfit (r : Rat)
  | setSharpeRatio (r : Rat)
deriving DecidableEq

/-- Effect of one `simulate_backtest` write on a backtest record. -/
def applyBacktestWrite (bt : BacktestInfo) : BacktestWrite → BacktestInfo
  | .setProgress p => { bt with progress := p }
  | .setCompleted b => { bt with completed := b }
  | .setTotalNumberOfTrades n =>
    { bt with result.TotalPerformance.TradeStatistics.TotalNumberOfTrades := n }
  | .setWinRate r =>
    { bt with result.TotalPerformance.TradeStatistics.WinRate := r }
  | .setTotalNetProfit r =>
    { bt with result.TotalPerformance.PortfolioStatistics.TotalNetProfit := r }
  | .setSharpeRatio r =>
    { bt with result.TotalPerformance.PortfolioStatistics.SharpeRatio := r }

/-- The ordered writes of `simulate_backtest` (lines 230-249): ten
progress ticks `(i + 1) / 10.0`, one per 1-time-unit sleep, then the
completion flag, the progress pin and the four result statistics. -/
def backtestSchedule : List BacktestWrite :=
  ((List.range 10).map (fun i => BacktestWrite.setProgress (((i : Rat) + 1) / 10))) ++
    [.setCompleted true, .setProgress 1, .setTotalNumberOfTrades 25,
      .setWinRate 0.68, .setTotalNetProfit 0.15, .setSharpeRatio 1.2]

/-- Record-level state after the first `n` writes of
`simulate_backtest`, starting from record `bt`. -/
def backtestAfter (bt : BacktestInfo) (n : Nat) : BacktestInfo :=
  (backtestSchedule.take n).foldl applyBacktestWrite bt

/-- Record-level effect of a completed `simulate_backtest` run. -/
def simulate_backtest (bt : BacktestInfo) : BacktestInfo :=
  backtestSchedule.foldl applyBacktestWrite bt

/-- Store-level state after the first `n` writes of the
`simulate_backtest` thread for backtest id `bid`. -/
def backtestStoreAfter (bid : String) (s : ServerState) (n : Nat) : ServerState :=
  { s with
    backtests := (backtestSchedule.take n).foldl (dictWrite applyBacktestWrite bid) s.backtests }

/-- `create_backtest` (lines 193-253).  `uuid.uuid4()` is the explicit
parameter `backtest_id`; the third component of the output is the id
the launched `simulate_backtest` thread will write to (`none` when no
thread is started). -/
def create_backtest (backtest_id : String) (req : BacktestCreateReq)
    (s : ServerState) : BacktestCreateResp × ServerState × Option String :=
  match req.projectId with
  | none => (.err false ["Project not found"], s, none)
  | some pid =>
    match dictGet s.projects pid with
    | none => (.err false ["Project not found"], s, none)
    | some _ =>
      let info := newBacktestInfo (req.backtestName.getD "Untitled Backtest") backtest_id
      (.record info,
        { s with backtests := dictSet s.backtests backtest_id info },
        some backtest_id)

/-- `read_backtest` (lines 256-274).  `if backtest_id:` is Python
truthiness: a missing field or an empty string falls through to the
per-project listing branch, whose filter compares the absent
`"projectId"` key of each record (always `None`) with the request's
`projectId`. -/
def read_backtest (req : BacktestReadReq) (s : ServerState) :
    BacktestReadResp × ServerState :=
  let allForProject : List BacktestInfo :=
    (dictValues s.backtests).filter
      (fun bt => decide (btProjectIdField bt = req.projectId))
  match req.backtestId with
  | some bid =>
    if bid ≠ "" then
      match dictGet s.backtests bid with
      | some info => (.record info, s)
      | none => (.err false ["Backtest not found"], s)
    else (.listing true allForProject [], s)
  | none => (.listing true allForProject [], s)

/-- All result fields at their zero-value (the payload of creation
time, lines 211-219). -/
def zeroResult (bt : BacktestInfo) : Prop :=
  bt.result.TotalPerformance.TradeStatistics.TotalNumberOfTrades = 0 ∧
  bt.result.TotalPerformance.TradeStatistics.WinRate = 0 ∧
  bt.result.TotalPerformance.PortfolioStatistics.TotalNetProfit = 0 ∧
  bt.result.TotalPerformance.PortfolioStatistics.SharpeRatio = 0

/-- All result fields at the fixed terminal payload written at lines
238-249. -/
def terminalResult (bt : BacktestInfo) : Prop :=
  bt.result.TotalPerformance.TradeStatistics.TotalNumberOfTrades = 25 ∧
  bt.result.TotalPerformance.TradeStatistics.WinRate = 0.68 ∧
  bt.result.TotalPerformance.PortfolioStatistics.TotalNetProfit = 0.15 ∧
  bt.result.TotalPerformance.PortfolioStatistics.SharpeRatio = 1.2

/-- The state at process start: all four storage dicts empty. -/
def emptyState : ServerState :=
  { projects := [], files := [], compiles := [], backtests := [] }

/-- The state after `create_project` on the empty state: project id 1
is allocated. -/
def exStateProj : ServerState :=
  (create_project { name := some "Test Algorithm", language := some "Py" } emptyState).2

/-- The state after additionally creating backtest `"b1"` for
project 1 (compileId and backtestName omitted in the request). -/
def exStateBT : ServerState :=
  (create_backtest "b1"
    { projectId := some 1, compileId := none, backtestName := none } exStateProj).2.1

/-! Helper lemmas about the dict operations and the backtest schedule. -/

theorem dictGet_dictSet_self {α β : Type} [DecidableEq α]
    (d : List (α × β)) (k : α) (v : β) : dictGet (dictSet d k v) k = some v := by
  induction d with
  | nil => simp [dictGet, dictSet]
  | cons hd tl ih =>
    obtain ⟨k0, v0⟩ := hd
    by_cases h : k0 = k
    · subst h
      simp [dictGet, dictSet]
    · simp [dictGet, dictSet, h, ih]

theorem dictGet_foldl_dictWrite {α β ω : Type} [DecidableEq α]
    (app : β → ω → β) (k : α) (ws : List ω) (d : List (α × β)) (v : β)
    (h : dictGet d k = some v) :
    dictGet (ws.foldl (dictWrite app k) d) k = some (ws.foldl app v) := by
  induction ws generalizing d v with
  | nil => simpa using h
  | cons w ws ih =>
    simp only [List.foldl_cons]
    exact ih _ _ (by simp [dictWrite, h, dictGet_dictSet_self])

theorem backtestSchedule_length : backtestSchedule.length = 16 := by
  decide

theorem backtestAfter_of_ge (bt : BacktestInfo) (n : Nat) (h : 16 ≤ n) :
    backtestAfter bt n = simulate_backtest bt := by
  unfold backtestAfter simulate_backtest
  rw [List.take_of_length_le (by rw [backtestSchedule_length]; exact h)]

theorem backtestStoreAfter_get (bid : String) (s : ServerState)
    (bt : BacktestInfo) (n : Nat) (h : dictGet s.backtests bid = some bt) :
    dictGet (backtestStoreAfter bid s n).backtests bid = some (backtestAfter bt n) := by
  exact dictGet_foldl_dictWrite applyBacktestWrite bid _ _ _ h

/-- Progress of the freshly created record after the first `n` runner
writes: `0` at creation, `n / 10` after the `n`-th tick, pinned to `1`
from the completion block on. -/
theorem backtestAfter_progress (name bid : String) (n : Nat) :
    (backtestAfter (newBacktestInfo name bid) n).progress =
      if n = 0 then 0 else if n ≤ 10 then (n : Rat) / 10 else 1 := by
  rcases Nat.lt_or_ge n 17 with h | h
  · interval_cases n <;>
      norm_num [backtestAfter, backtestSchedule, applyBacktestWrite,
        newBacktestInfo, List.range_succ, List.take_succ_cons]
  · rw [backtestAfter_of_ge _ _ (by omega)]
    rw [show ((if n = 0 then (0 : Rat) else if n ≤ 10 then (n : Rat) / 10 else 1) = 1) by
      rw [if_neg (by omega), if_neg (by omega)]]
    norm_num [simulate_backtest, backtestSchedule, applyBacktestWrite,
      newBacktestInfo, List.range_succ]

/-- Completion flag of the freshly created record after the first `n`
runner writes: set by the 11th write (`completed = True`, line 236). -/
theorem backtestAfter_completed (name bid : String) (n : Nat) :
    (backtestAfter (newBacktestInfo name bid) n).completed = decide (11 ≤ n) := by
  rcases Nat.lt_or_ge n 17 with h | h
  · interval_cases n <;>
      simp [backtestAfter, backtestSchedule, applyBacktestWrite,
        newBacktestInfo, List.range_succ, List.take_succ_cons]
  · rw [backtestAfter_of_ge _ _ (by omega),
      show decide (11 ≤ n) = true by simpa using by omega]
    simp [simulate_backtest, backtestSchedule, applyBacktestWrite,
      newBacktestInfo, List.range_succ]

/-- The result payload is untouched by the first eleven runner writes
(the ten ticks and the completion flag). -/
theorem backtestAfter_result_early (name bid : String) (n : Nat) (h : n ≤ 11) :
    (backtestAfter (newBacktestInfo name bid) n).result = initialBacktestResult := by
  interval_cases n <;>
    simp [backtestAfter, backtestSchedule, applyBacktestWrite,
      newBacktestInfo, List.range_succ, List.take_succ_cons]

/-- After the full schedule the result payload holds the fixed
terminal statistics of lines 238-249. -/
theorem backtestAfter_result_final (name bid : String) (n : Nat) (h : 16 ≤ n) :
    terminalResult (backtestAfter (newBacktestInfo name bid) n) := by
  rw [backtestAfter_of_ge _ _ h]
  norm_num [terminalResult, simulate_backtest, backtestSchedule,
    applyBacktestWrite, newBacktestInfo, initialBacktestResult, List.range_succ]

/-! Claims. -/

/-- Claim C6 counterexample: the backtest id `""` is absent from the
(empty) backtest store, yet reading it returns the per-project listing
with `success:true` instead of the not-found error, because
`if backtest_id:` treats the empty string as an omitted id. -/
theorem read_backtest_empty_id_not_error :
    (read_backtest { projectId := none, backtestId := some "" } emptyState).1 =
      .listing true [] [] ∧
    (read_backtest { projectId := none, backtestId := some "" } emptyState).1 ≠
      .err false ["Backtest not found"] := by
  exact ⟨rfl, by decide⟩

/-- Claim C6 (amended): reading a compile id absent from the compile
store returns `success:false` with exactly `["Compile job not found"]`,
and reading a nonempty backtest id absent from the backtest store
returns `success:false` with exactly `["Backtest not found"]`; a read
request whose backtest id is the empty string is instead treated as an
omitted id and answered with the per-project listing.  Both operations
are total and return structured payloads. -/
theorem read_not_found_payloads (s : ServerState) (pc pb : Option Nat)
    (cid bid : String) (hc : dictGet s.compiles cid = none)
    (hb : dictGet s.backtests bid = none) (hbne : bid ≠ "") :
    (read_compile { projectId := pc, compileId := some cid } s).1 =
      .err false ["Compile job not found"] ∧
    (read_backtest { projectId := pb, backtestId := some bid } s).1 =
      .err false ["Backtest not found"] := by
  constructor
  · simp [read_compile, hc]
  · simp [read_backtest, hbne, hb]

/-- Witness for `read_not_found_payloads` at the empty store with ids
`"c1"` and `"b1"`. -/
theorem read_not_found_payloads_witness :
    dictGet emptyState.compiles "c1" = none ∧
    dictGet emptyState.backtests "b1" = none ∧
    ("b1" : String) ≠ "" ∧
    ((read_compile { projectId := none, compileId := some "c1" } emptyState).1 =
        .err false ["Compile job not found"] ∧
      (read_backtest { projectId := none, backtestId := some "b1" } emptyState).1 =
        .err false ["Backtest not found"]) :=
  ⟨rfl, rfl, by decide,
    read_not_found_payloads emptyState none none "c1" "b1" rfl rfl (by decide)⟩

/-- Claim C8: the status readers never modify any store, and a second
read of the same request right after a first one returns the identical
payload. -/
theorem reads_do_not_modify_stores (cr : CompileReadReq) (br : BacktestReadReq)
    (s : ServerState) :
    (read_compile cr s).2 = s ∧ (read_backtest br s).2 = s ∧
    (read_compile cr ((read_compile cr s).2)).1 = (read_compile cr s).1 ∧
    (read_backtest br ((read_backtest br s).2)).1 = (read_backtest br s).1 := by
  have hc : (read_compile cr s).2 = s := by
    rcases cr with ⟨pc, cid⟩
    cases cid with
    | none => rfl
    | some c => cases h : dictGet s.compiles c <;> simp [read_compile, h]
  have hb : (read_backtest br s).2 = s := by
    rcases br with ⟨pb, bid⟩
    cases bid with
    | none => rfl
    | some b =>
      by_cases hne : b ≠ ""
      · cases h : dictGet s.backtests b <;> simp [read_backtest, hne, h]
      · simp [read_backtest, hne]
  exact ⟨hc, hb, by rw [hc], by rw [hb]⟩

/-- Claim C9: when a nonempty backtest id present in the store is
supplied, the read response does not depend on the request's
`projectId` field (present or omitted), and it is the stored record. -/
theorem read_backtest_ignores_project_id (s : ServerState) (bid : String)
    (info : BacktestInfo) (p1 p2 : Option Nat)
    (hmem : dictGet s.backtests bid = some info) (hne : bid ≠ "") :
    read_backtest { projectId := p1, backtestId := some bid } s =
      read_backtest { projectId := p2, backtestId := some bid } s ∧
    (read_backtest { projectId := p1, backtestId := some bid } s).1 =
      .record info := by
  constructor <;> simp [read_backtest, hne, hmem]

/-- Witness for `read_backtest_ignores_project_id` on the store holding
backtest `"b1"`, with project ids `none` and `some 2`. -/
theorem read_backtest_ignores_project_id_witness :
    dictGet exStateBT.backtests "b1" =
      some (newBacktestInfo "Untitled Backtest" "b1") ∧
    ("b1" : String) ≠ "" ∧
    (read_backtest { projectId := none, backtestId := some "b1" } exStateBT =
        read_backtest { projectId := some 2, backtestId := some "b1" } exStateBT ∧
      (read_backtest { projectId := none, backtestId := some "b1" } exStateBT).1 =
        .record (newBacktestInfo "Untitled Backtest" "b1")) :=
  ⟨rfl, by decide,
    read_backtest_ignores_project_id exStateBT "b1"
      (newBacktestInfo "Untitled Backtest" "b1") none (some 2) rfl (by decide)⟩

/-- Claim C10: creating a compile or backtest job for a project id
absent from the project store returns `success:false` with exactly
`["Project not found"]`, leaves every store unchanged and launches no
runner thread. -/
theorem create_job_project_not_found (s : ServerState) (p : Nat)
    (hp : dictGet s.projects p = none) (cid bid : String)
    (cc bn : Option String) :
    create_compile cid { projectId := some p } s =
      (.err false ["Project not found"], s, none) ∧
    create_backtest bid { projectId := some p, compileId := cc, backtestName := bn } s =
      (.err false ["Project not found"], s, none) := by
  constructor
  · simp [create_compile, hp]
  · simp [create_backtest, hp]

/-- Witness for `create_job_project_not_found` at the empty store and
project id 7. -/
theorem create_job_project_not_found_witness :
    dictGet emptyState.projects 7 = none ∧
    (create_compile "c1" { projectId := some 7 } emptyState =
        (.err false ["Project not found"], emptyState, none) ∧
      create_backtest "b1"
          { projectId := some 7, compileId := none, backtestName := none } emptyState =
        (.err false ["Project not found"], emptyState, none)) :=
  ⟨rfl, create_job_project_not_found emptyState 7 rfl "c1" "b1" none none⟩

/-- Claim C5 (code bug): the store `exStateBT` holds exactly one
backtest record, created by a `backtests/create` request for project 1,
yet the listing read for project 1 (backtestId omitted) returns
`success:true` with an empty record list: the filter compares the
never-stored `"projectId"` key (always `None`) with the request's
project id. -/
theorem read_backtest_listing_misses_created_backtests :
    (read_backtest { projectId := some 1, backtestId := none } exStateBT).1 =
      .listing true [] [] ∧
    dictValues exStateBT.backtests =
      [newBacktestInfo "Untitled Backtest" "b1"] := by
  exact ⟨rfl, rfl⟩

/-- Claim C2 counterexample: after the 11th store write of the runner
(the `completed = True` write of line 236, which precedes the result
writes of lines 238-249) the reachable state has `completed == true`
while all four result fields are still at their zero-value. -/
theorem backtest_completed_with_zero_result :
    (dictGet (backtestStoreAfter "b1" exStateBT 11).backtests "b1").map
        (fun bt =>
          (bt.completed,
            bt.result.TotalPerformance.TradeStatistics.TotalNumberOfTrades,
            bt.result.TotalPerformance.TradeStatistics.WinRate,
            bt.result.TotalPerformance.PortfolioStatistics.TotalNetProfit,
            bt.result.TotalPerformance.PortfolioStatistics.SharpeRatio)) =
      some (true, 0, 0, 0, 0) := by
  rfl

/-- Claim C2 (amended): along the runner's store writes, the result
fields are all zero while `completed == false`, a fully populated
result is only ever observed together with `completed == true`, and
once the whole schedule has run the record is completed with the fixed
terminal payload; however, between the completed-flag write and the
last result write there are reachable states in which `completed` is
already true while the result is still zero or partially populated
(the counterexample above). -/
theorem backtest_result_zero_until_terminal (s : ServerState)
    (name bid : String) (n : Nat) (bt : BacktestInfo)
    (hmem : dictGet s.backtests bid = some (newBacktestInfo name bid))
    (hbt : dictGet (backtestStoreAfter bid s n).backtests bid = some bt) :
    (bt.completed = false → zeroResult bt) ∧
    (terminalResult bt → bt.completed = true) ∧
    (16 ≤ n → bt.completed = true ∧ terminalResult bt) := by
  rw [backtestStoreAfter_get bid s _ n hmem] at hbt
  obtain rfl := Option.some.inj hbt
  refine ⟨?_, ?_, ?_⟩
  · intro hcomp
    have h10 : n ≤ 10 := by
      by_contra hgt
      rw [backtestAfter_completed] at hcomp
      simp at hcomp
      omega
    simp [zeroResult, backtestAfter_result_early name bid n (by omega),
      initialBacktestResult]
  · intro hterm
    rcases le_or_lt 11 n with h | h
    · rw [backtestAfter_completed]
      simpa using h
    · exfalso
      have hres := backtestAfter_result_early name bid n (by omega)
      norm_num [terminalResult, hres, initialBacktestResult] at hterm
  · intro h16
    constructor
    · rw [backtestAfter_completed]
      simpa using by omega
    · exact backtestAfter_result_final name bid n h16

/-- Witness for `backtest_result_zero_until_terminal` at the store
holding the freshly created backtest `"b1"` and the empty write
sequence. -/
theorem backtest_result_zero_until_terminal_witness :
    dictGet exStateBT.backtests "b1" =
      some (newBacktestInfo "Untitled Backtest" "b1") ∧
    dictGet (backtestStoreAfter "b1" exStateBT 0).backtests "b1" =
      some (newBacktestInfo "Untitled Backtest" "b1") ∧
    (((newBacktestInfo "Untitled Backtest" "b1").completed = false →
        zeroResult (newBacktestInfo "Untitled Backtest" "b1")) ∧
      (terminalResult (newBacktestInfo "Untitled Backtest" "b1") →
        (newBacktestInfo "Untitled Backtest" "b1").completed = true) ∧
      (16 ≤ 0 → (newBacktestInfo "Untitled Backtest" "b1").completed = true ∧
        terminalResult (newBacktestInfo "Untitled Backtest" "b1"))) :=
  ⟨rfl, rfl,
    backtest_result_zero_until_terminal exStateBT "Untitled Backtest" "b1" 0
      (newBacktestInfo "Untitled Backtest" "b1") rfl rfl⟩

/-- Claim C3 counterexample: after the 10th store write (the last
progress tick, line 233) the reachable state has progress exactly 1.0
while `completed` is still false; the completed flag is only written by
the 11th write. -/
theorem backtest_progress_one_before_completed :
    (dictGet (backtestStoreAfter "b1" exStateBT 10).backtests "b1").map
        (fun bt => bt.progress) = some 1 ∧
    (dictGet (backtestStoreAfter "b1" exStateBT 10).backtests "b1").map
        (fun bt => bt.completed) = some false := by
  constructor
  · rw [backtestStoreAfter_get "b1" exStateBT
      (newBacktestInfo "Untitled Backtest" "b1") 10 rfl]
    norm_num [backtestAfter_progress]
  · rfl

/-- Claim C3 (amended): in every state reachable by a prefix of the
runner's store writes, `completed == true` implies progress exactly
1.0; conversely progress 1.0 implies `completed == true` except in the
single state right after the 10th tick (write-sequence position 10),
where progress is already 1.0 but completed is still false. -/
theorem backtest_progress_one_iff_completed_except_tick10 (s : ServerState)
    (name bid : String) (n : Nat) (bt : BacktestInfo)
    (hmem : dictGet s.backtests bid = some (newBacktestInfo name bid))
    (hbt : dictGet (backtestStoreAfter bid s n).backtests bid = some bt) :
    (bt.completed = true → bt.progress = 1) ∧
    (bt.progress = 1 → bt.completed = true ∨ n = 10) := by
  rw [backtestStoreAfter_get bid s _ n hmem] at hbt
  obtain rfl := Option.some.inj hbt
  constructor
  · intro hcomp
    rw [backtestAfter_completed] at hcomp
    have h11 : 11 ≤ n := by simpa using hcomp
    rw [backtestAfter_progress, if_neg (by omega), if_neg (by omega)]
  · intro hprog
    rcases le_or_lt 11 n with h | h
    · left
      rw [backtestAfter_completed]
      simpa using h
    · right
      rw [backtestAfter_progress] at hprog
      rcases Nat.eq_zero_or_pos n with h0 | h0
      · subst h0
        norm_num at hprog
      · rw [if_neg (by omega), if_pos (by omega)] at hprog
        field_simp at hprog
        exact_mod_cast hprog

/-- Witness for `backtest_progress_one_iff_completed_except_tick10` at
the store holding the freshly created backtest `"b1"` and the empty
write sequence. -/
theorem backtest_progress_one_iff_completed_witness :
    dictGet exStateBT.backtests "b1" =
      some (newBacktestInfo "Untitled Backtest" "b1") ∧
    dictGet (backtestStoreAfter "b1" exStateBT 0).backtests "b1" =
      some (newBacktestInfo "Untitled Backtest" "b1") ∧
    (((newBacktestInfo "Untitled Backtest" "b1").completed = true →
        (newBacktestInfo "Untitled Backtest" "b1").progress = 1) ∧
      ((newBacktestInfo "Untitled Backtest" "b1").progress = 1 →
        (newBacktestInfo "Untitled Backtest" "b1").completed = true ∨ (0 : Nat) = 10)) :=
  ⟨rfl, rfl,
    backtest_progress_one_iff_completed_except_tick10 exStateBT
      "Untitled Backtest" "b1" 0 (newBacktestInfo "Untitled Backtest" "b1") rfl rfl⟩

/-- Claim C7: along the runner's store writes the progress field starts
at 0.0 at creation, is monotonically non-decreasing from each write to
the next, always lies in the interval from 0 to 1, and no longer
changes once the completed (terminal) state has been entered. -/
theorem backtest_progress_monotone_bounded (s : ServerState)
    (name bid : String) (n m : Nat) (btn btn1 btm : BacktestInfo) (hnm : n ≤ m)
    (hmem : dictGet s.backtests bid = some (newBacktestInfo name bid))
    (hn : dictGet (backtestStoreAfter bid s n).backtests bid = some btn)
    (hn1 : dictGet (backtestStoreAfter bid s (n + 1)).backtests bid = some btn1)
    (hm : dictGet (backtestStoreAfter bid s m).backtests bid = some btm) :
    (newBacktestInfo name bid).progress = 0 ∧
    btn.progress ≤ btn1.progress ∧
    (0 ≤ btn.progress ∧ btn.progress ≤ 1) ∧
    (btn.completed = true → btm.progress = btn.progress) := by
  rw [backtestStoreAfter_get bid s _ n hmem] at hn
  rw [backtestStoreAfter_get bid s _ (n + 1) hmem] at hn1
  rw [backtestStoreAfter_get bid s _ m hmem] at hm
  obtain rfl := Option.some.inj hn
  obtain rfl := Option.some.inj hn1
  obtain rfl := Option.some.inj hm
  refine ⟨by simp [newBacktestInfo], ?_, ?_, ?_⟩
  · rw [backtestAfter_progress, backtestAfter_progress]
    rcases Nat.eq_zero_or_pos n with h0 | h0
    · subst h0
      norm_num
    by_cases h10 : n + 1 ≤ 10
    · rw [if_neg (by omega), if_pos (by omega), if_neg (by omega), if_pos h10]
      push_cast
      gcongr
      linarith
    by_cases h10a : n ≤ 10
    · have hn10 : n = 10 := by omega
      subst hn10
      norm_num
    · rw [if_neg (by omega), if_neg h10a, if_neg (by omega), if_neg h10]
  · rw [backtestAfter_progress]
    rcases Nat.eq_zero_or_pos n with h0 | h0
    · subst h0
      norm_num
    by_cases h10 : n ≤ 10
    · rw [if_neg (by omega), if_pos h10]
      constructor
      · positivity
      · rw [div_le_one (by norm_num)]
        exact_mod_cast h10
    · rw [if_neg (by omega), if_neg h10]
      norm_num
  · intro hcomp
    rw [backtestAfter_completed] at hcomp
    have h11 : 11 ≤ n := by simpa using hcomp
    rw [backtestAfter_progress, backtestAfter_progress, if_neg (by omega),
      if_neg (by omega), if_neg (by omega), if_neg (by omega)]

/-- Witness for `backtest_progress_monotone_bounded` at the store
holding the freshly created backtest `"b1"`, write positions 0 and 0. -/
theorem backtest_progress_monotone_bounded_witness :
    (0 : Nat) ≤ 0 ∧
    dictGet exStateBT.backtests "b1" =
      some (newBacktestInfo "Untitled Backtest" "b1") ∧
    dictGet (backtestStoreAfter "b1" exStateBT 0).backtests "b1" =
      some (newBacktestInfo "Untitled Backtest" "b1") ∧
    dictGet (backtestStoreAfter "b1" exStateBT (0 + 1)).backtests "b1" =
      some (backtestAfter (newBacktestInfo "Untitled Backtest" "b1") 1) ∧
    dictGet (backtestStoreAfter "b1" exStateBT 0).backtests "b1" =
      some (newBacktestInfo "Untitled Backtest" "b1") ∧
    ((newBacktestInfo "Untitled Backtest" "b1").progress = 0 ∧
      (newBacktestInfo "Untitled Backtest" "b1").progress ≤
        (backtestAfter (newBacktestInfo "Untitled Backtest" "b1") 1).progress ∧
      (0 ≤ (newBacktestInfo "Untitled Backtest" "b1").progress ∧
        (newBacktestInfo "Untitled Backtest" "b1").progress ≤ 1) ∧
      ((newBacktestInfo "Untitled Backtest" "b1").completed = true →
        (newBacktestInfo "Untitled Backtest" "b1").progress =
          (newBacktestInfo "Untitled Backtest" "b1").progress)) :=
  ⟨Nat.le_refl 0, rfl, rfl, rfl, rfl,
    backtest_progress_monotone_bounded exStateBT "Untitled Backtest" "b1" 0 0
      (newBacktestInfo "Untitled Backtest" "b1")
      (backtestAfter (newBacktestInfo "Untitled Backtest" "b1") 1)
      (newBacktestInfo "Untitled Backtest" "b1") (Nat.le_refl 0) rfl rfl rfl rfl⟩

/-- Claim C4: for a project present in the store, `create_compile`
stores a record in state `"InQueue"` whose log is the single entry
`"Compilation started"`, and after the runner's one delayed step (the
two writes of `simulate_compilation`, performed after the 2-time-unit
sleep) the stored record is in the terminal success state
`"BuildSuccess"` with the log ending in
`"Compilation completed successfully"`. -/
theorem compile_job_lifecycle (s : ServerState) (cid : String) (pid : Nat)
    (proj : Project) (hp : dictGet s.projects pid = some proj) :
    dictGet (create_compile cid { projectId := some pid } s).2.1.compiles cid =
      some (newCompileInfo cid) ∧
    (newCompileInfo cid).state = "InQueue" ∧
    1 ≤ (newCompileInfo cid).logs.length ∧
    (newCompileInfo cid).logs.head? = some "Compilation started" ∧
    dictGet (compileStoreRun cid
        (create_compile cid { projectId := some pid } s).2.1).compiles cid =
      some (simulate_compilation (newCompileInfo cid)) ∧
    (simulate_compilation (newCompileInfo cid)).state = "BuildSuccess" ∧
    2 ≤ (simulate_compilation (newCompileInfo cid)).logs.length ∧
    (simulate_compilation (newCompileInfo cid)).logs.getLast? =
      some "Compilation completed successfully" := by
  have hstored :
      dictGet (create_compile cid { projectId := some pid } s).2.1.compiles cid =
        some (newCompileInfo cid) := by
    simp [create_compile, hp, dictGet_dictSet_self]
  refine ⟨hstored, rfl, by simp [newCompileInfo], rfl, ?_, rfl,
    by simp [simulate_compilation, compileSchedule, applyCompileWrite, newCompileInfo], rfl⟩
  exact dictGet_foldl_dictWrite applyCompileWrite cid compileSchedule _ _ hstored

/-- Witness for `compile_job_lifecycle` at the store holding project 1
and compile id `"c1"`. -/
theorem compile_job_lifecycle_witness :
    dictGet exStateProj.projects 1 =
      some { projectId := 1, name := "Test Algorithm", language := "Py" } ∧
    (dictGet (create_compile "c1" { projectId := some 1 } exStateProj).2.1.compiles "c1" =
        some (newCompileInfo "c1") ∧
      (newCompileInfo "c1").state = "InQueue" ∧
      1 ≤ (newCompileInfo "c1").logs.length ∧
      (newCompileInfo "c1").logs.head? = some "Compilation started" ∧
      dictGet (compileStoreRun "c1"
          (create_compile "c1" { projectId := some 1 } exStateProj).2.1).compiles "c1" =
        some (simulate_compilation (newCompileInfo "c1")) ∧
      (simulate_compilation (newCompileInfo "c1")).state = "BuildSuccess" ∧
      2 ≤ (simulate_compilation (newCompileInfo "c1")).logs.length ∧
      (simulate_compilation (newCompileInfo "c1")).logs.getLast? =
        some "Compilation completed successfully") :=
  ⟨rfl, compile_job_lifecycle exStateProj "c1" 1
    { projectId := 1, name := "Test Algorithm", language := "Py" } rfl⟩

/-- Claim C1: once the backtest runner's whole schedule (ten ticks plus
finalization) has been applied to the store, reading the backtest id
returns the terminal record, whose `completed` flag is true, whose
progress is exactly 1.0 and whose result payload carries exactly
TotalNumberOfTrades 25, WinRate 0.68, TotalNetProfit 0.15 and
SharpeRatio 1.2; and after the i-th of the ten ticks the stored
progress is exactly i / 10, giving the observed sequence
0.1, 0.2, ..., 1.0. -/
theorem backtest_end_to_end (s : ServerState) (name bid : String)
    (pid : Option Nat) (hbid : bid ≠ "")
    (hmem : dictGet s.backtests bid = some (newBacktestInfo name bid)) :
    (read_backtest { projectId := pid, backtestId := some bid }
        (backtestStoreAfter bid s backtestSchedule.length)).1 =
      .record (simulate_backtest (newBacktestInfo name bid)) ∧
    (simulate_backtest (newBacktestInfo name bid)).completed = true ∧
    (simulate_backtest (newBacktestInfo name bid)).progress = 1 ∧
    terminalResult (simulate_backtest (newBacktestInfo name bid)) ∧
    (∀ i : Nat, 1 ≤ i → i ≤ 10 →
      (dictGet (backtestStoreAfter bid s i).backtests bid).map
          BacktestInfo.progress = some ((i : Rat) / 10)) := by
  have hfin : backtestAfter (newBacktestInfo name bid) backtestSchedule.length =
      simulate_backtest (newBacktestInfo name bid) :=
    backtestAfter_of_ge _ _ (by rw [backtestSchedule_length])
  have hget : dictGet
      (backtestStoreAfter bid s backtestSchedule.length).backtests bid =
      some (simulate_backtest (newBacktestInfo name bid)) := by
    rw [backtestStoreAfter_get bid s _ _ hmem, hfin]
  refine ⟨?_, ?_, ?_, ?_, ?_⟩
  · simp [read_backtest, hbid, hget]
  · rw [← hfin, backtestAfter_completed, backtestSchedule_length]
    decide
  · rw [← hfin, backtestAfter_progress, backtestSchedule_length]
    norm_num
  · rw [← hfin]
    exact backtestAfter_result_final name bid _ (by rw [backtestSchedule_length])
  · intro i h1 h10
    rw [backtestStoreAfter_get bid s _ i hmem]
    rw [Option.map_some', backtestAfter_progress, if_neg (by omega), if_pos h10]

/-- Witness for `backtest_end_to_end` at the store holding the freshly
created backtest `"b1"`, read with projectId 1. -/
theorem backtest_end_to_end_witness :
    ("b1" : String) ≠ "" ∧
    dictGet exStateBT.backtests "b1" =
      some (newBacktestInfo "Untitled Backtest" "b1") ∧
    ((read_backtest { projectId := some 1, backtestId := some "b1" }
        (backtestStoreAfter "b1" exStateBT backtestSchedule.length)).1 =
      .record (simulate_backtest (newBacktestInfo "Untitled Backtest" "b1")) ∧
    (simulate_backtest (newBacktestInfo "Untitled Backtest" "b1")).completed = true ∧
    (simulate_backtest (newBacktestInfo "Untitled Backtest" "b1")).progress = 1 ∧
    terminalResult (simulate_backtest (newBacktestInfo "Untitled Backtest" "b1")) ∧
    (∀ i : Nat, 1 ≤ i → i ≤ 10 →
      (dictGet (backtestStoreAfter "b1" exStateBT i).backtests "b1").map
          BacktestInfo.progress = some ((i : Rat) / 10))) :=
  ⟨by decide, rfl,
    backtest_end_to_end exStateBT "Untitled Backtest" "b1" (some 1) (by decide) rfl⟩

end MinimalServer
